import Mathlib

/-!
Verification of the Neewer CLI protocol codec (`neewer_cli.py`).

Shallow embedding conventions:
* Python strings are modelled as `List Char`; the few string helpers the
  codec needs (`strip`, `upper`, `lower`, `split`, substring search, hex
  parsing) are implemented structurally below for the ASCII inputs the
  program manipulates.
* Python integers are `Int`; byte vectors are `List Int`.
* Python exceptions (`ConfigError`, `UnsupportedModeError`, `ValueError`)
  are modelled by `Except CliError`.
* The float post-delays `0.0` and `0.05` (seconds) are the exact rationals
  `0` and `mkRat 5 100`; they only appear as literals in the source and are
  never computed with.
-/

namespace NeewerCli

/-- Errors raised by the CLI core: `ConfigError`, `UnsupportedModeError`
and Python's builtin `ValueError`. -/
inductive CliError where
  | configError (msg : String)
  | unsupportedMode (msg : String)
  | valueError (msg : String)
deriving DecidableEq

deriving instance DecidableEq for Except

/-- ASCII upper-casing of one character, as Python `str.upper` acts on the
ASCII device names and selectors this program handles. -/
def upperChar (c : Char) : Char :=
  if 'a' ≤ c ∧ c ≤ 'z' then Char.ofNat (c.toNat - 32) else c

/-- ASCII lower-casing of one character (Python `str.lower`). -/
def lowerChar (c : Char) : Char :=
  if 'A' ≤ c ∧ c ≤ 'Z' then Char.ofNat (c.toNat + 32) else c

/-- Whitespace recognised by Python `str.strip` (the forms that occur in
config files and selectors). -/
def isSpaceChar (c : Char) : Bool :=
  c = ' ' ∨ c = '\t' ∨ c = '\n' ∨ c = '\r'

/-- Drop leading whitespace. -/
def lstripChars : List Char → List Char
  | [] => []
  | c :: rest => if isSpaceChar c then lstripChars rest else c :: rest

/-- Python `str.strip`: drop leading and trailing whitespace. -/
def pyStrip (s : List Char) : List Char :=
  ((lstripChars (lstripChars s.reverse)).reverse)

/-- Python `str.split(sep)` for a one-character separator: every occurrence
of the separator cuts, empty pieces are kept, and `split` of the empty
string is `[""]`. -/
def splitOnChar (sep : Char) : List Char → List (List Char)
  | [] => [[]]
  | c :: rest =>
      let r := splitOnChar sep rest
      if c = sep then [] :: r
      else (c :: r.headD []) :: r.tail

/-- Everything after the first `':'`; `token.split(":", 1)[1]` for the
tokens this program feeds it (they are guaranteed to contain a colon). -/
def afterFirstColon : List Char → List Char
  | [] => []
  | c :: rest => if c = ':' then rest else afterFirstColon rest

/-- Value of one hexadecimal digit, if any. -/
def hexDigitVal (c : Char) : Option Int :=
  if '0' ≤ c ∧ c ≤ '9' then some ((c.toNat : Int) - ('0'.toNat : Int))
  else if 'a' ≤ c ∧ c ≤ 'f' then some ((c.toNat : Int) - ('a'.toNat : Int) + 10)
  else if 'A' ≤ c ∧ c ≤ 'F' then some ((c.toNat : Int) - ('A'.toNat : Int) + 10)
  else none

/-- Python `int(s, 16)` for the plain hexadecimal digit strings that MAC
octets are made of; `none` on the empty string or a non-hex character. -/
def parseHexDigits (s : List Char) : Option Int :=
  if s = [] then none
  else s.foldlM (fun acc c => (hexDigitVal c).map fun d => acc * 16 + d) (0 : Int)

/-- Python `needle in hay` substring containment on strings. -/
def containsSub (hay needle : List Char) : Bool :=
  (List.range (hay.length + 1)).any fun i => needle.isPrefixOf (hay.drop i)

/-- Fixture descriptor (`LightInfo` dataclass); the BLE transport handles
(`ble_device`, `client`) are outside the codec and are omitted. -/
structure LightInfo where
  name : List Char
  realname : List Char
  address : List Char
  rssi : Int
  cct_only : Bool
  infinity_mode : Int
  hw_mac : Option (List Char) := none
  supports_status_query : Option Bool := none
  supports_extended_scene : Option Bool := none
deriving DecidableEq

/-- Promotion of a negative byte value by 256, as in `tag_checksum`. -/
def promote_byte (value : Int) : Int :=
  if value < 0 then value + 256 else value

/-- Accumulating loop of `tag_checksum`. Python's final `checksum & 0xFF`
on an arbitrary-precision int equals `checksum % 256` (`Int.emod`, which is
non-negative for the positive modulus). -/
def tag_checksum_go (payload : List Int) (checksum : Int) (tagged : List Int) : List Int :=
  match payload with
  | [] => tagged ++ [checksum % 256]
  | value :: rest => tag_checksum_go rest (checksum + promote_byte value) (tagged ++ [value])

/-- `tag_checksum`: append the one-byte modular sum to a payload. -/
def tag_checksum (payload : List Int) : List Int :=
  tag_checksum_go payload 0 []

/-- `clamp(value, low, high)`. -/
def clamp (value low high : Int) : Int :=
  max low (min high value)

/-- Python `int(round(temp / 100.0))` for `temp ≥ 1000`: round half to even
(Python 3 `round`). The float division is exact at every half-integer the
rounding can distinguish in the range that survives the downstream clamp to
`[25, 100]`, so the rational form is observationally equal. -/
def round_div_100 (temp : Int) : Int :=
  let q := temp / 100
  let r := temp % 100
  if r < 50 then q
  else if 50 < r then q + 1
  else if q % 2 = 0 then q else q + 1

/-- `parse_temp_value`: values ≥ 1000 (Kelvin form such as 5600) are scaled
down by 100; smaller values pass through. -/
def parse_temp_value (temp_raw : Int) : Int :=
  if 1000 ≤ temp_raw then round_div_100 temp_raw else temp_raw

/-- `convert_fx_index`: effect-index remapping between dialect tables. -/
def convert_fx_index (infinity_mode effect_num : Int) : Int :=
  if 0 < infinity_mode then
    if 20 < effect_num then
      if effect_num = 21 then 10
      else if effect_num = 22 then 8
      else if effect_num = 23 then 12
      else if effect_num = 24 then 12
      else if effect_num = 25 then 17
      else if effect_num = 26 then 11
      else if effect_num = 27 then 1
      else if effect_num = 28 then 2
      else if effect_num = 29 then 15
      else effect_num
    else effect_num
  else
    if effect_num < 20 then
      if effect_num = 10 then 1
      else if effect_num = 16 then 4
      else if effect_num = 17 then 5
      else if effect_num = 11 then 6
      else if effect_num = 1 then 7
      else if effect_num = 2 then 8
      else if effect_num = 15 then 9
      else 10
    else effect_num - 20

/-- `_split_hue`: clamp to `[0, 360]` and split into low/high bytes. For
the clamped non-negative hue, Python's `hue & 0xFF` is `hue % 256` and
`(hue & 0xFF00) >> 8` is `(hue % 65536) / 256`. -/
def split_hue (hue_value : Int) : Int × Int :=
  let hue := clamp hue_value 0 360
  (hue % 256, (hue % 65536) / 256)

/-- Command parameters drawn from the argparse namespace; exactly the
fields the encoder reads. -/
structure Args where
  temp : Int
  bri : Int
  gm : Int
  hue : Int
  sat : Int
  scene : Int
  enable_extended_scene : Bool
  scene_bright_min : Int
  scene_bright_max : Int
  scene_temp_min : Int
  scene_temp_max : Int
  scene_hue_min : Int
  scene_hue_max : Int
  scene_speed : Int
  scene_sparks : Int
  scene_special : Int
deriving DecidableEq

/-- `calculate_extended_scene_bytestring`: per-effect payload schemas for
the extended scene form. -/
def calculate_extended_scene_bytestring (effect : Int) (args : Args) : List Int :=
  let brightness := clamp args.bri 0 100
  let bright_min := clamp args.scene_bright_min 0 100
  let bright_max := clamp args.scene_bright_max 0 100
  let temp := clamp (parse_temp_value args.temp) 25 100
  let temp_min := clamp (parse_temp_value args.scene_temp_min) 25 100
  let temp_max := clamp (parse_temp_value args.scene_temp_max) 25 100
  let gm := clamp (args.gm + 50) 0 100
  let hue_low := (split_hue args.hue).1
  let hue_high := (split_hue args.hue).2
  let hue_min_low := (split_hue args.scene_hue_min).1
  let hue_min_high := (split_hue args.scene_hue_min).2
  let hue_max_low := (split_hue args.scene_hue_max).1
  let hue_max_high := (split_hue args.scene_hue_max).2
  let sat := clamp args.sat 0 100
  let speed := clamp args.scene_speed 1 10
  let sparks := clamp args.scene_sparks 0 10
  let special := clamp args.scene_special 0 10
  let payload :=
    if effect = 1 then [effect, brightness, temp, speed]
    else if effect = 2 ∨ effect = 3 ∨ effect = 6 ∨ effect = 8 then
      [effect, brightness, temp, gm, speed]
    else if effect = 4 then [effect, brightness, temp, gm, speed, sparks]
    else if effect = 5 then [effect, bright_min, bright_max, temp, gm, speed]
    else if effect = 7 ∨ effect = 9 then [effect, brightness, hue_low, hue_high, sat, speed]
    else if effect = 10 then [effect, brightness, special, speed]
    else if effect = 11 then [effect, bright_min, bright_max, temp, gm, speed, sparks]
    else if effect = 12 then
      [effect, brightness, hue_min_low, hue_min_high, hue_max_low, hue_max_high, speed]
    else if effect = 13 then [effect, brightness, temp_min, temp_max, speed]
    else if effect = 14 then [14, 0, bright_min, bright_max, 0, 0, temp, speed]
    else if effect = 15 then [14, 1, bright_min, bright_max, hue_low, hue_high, 0, speed]
    else if effect = 16 then [15, bright_min, bright_max, temp, gm, speed]
    else if effect = 17 then [16, brightness, special, speed, sparks]
    else if effect = 18 then [17, brightness, special, speed]
    else if effect = 21 then [effect, brightness, 2, 5]
    else if effect = 22 then [effect, brightness, 75, 50, 5]
    else if effect = 23 then [effect, brightness, 0, 0, 55, 0, 10]
    else if effect = 24 then [effect, brightness, 49, 0, 20, 1, 8]
    else if effect = 25 then [effect, brightness, 1, 10]
    else if effect = 26 then [effect, 2, brightness, 32, 50, 10, 4]
    else if effect = 27 then [effect, brightness, 75, 10]
    else if effect = 28 then [effect, brightness, 75, 50, 10]
    else if effect = 29 then [effect, 2, brightness, 75, 50, 10]
    else [effect, brightness]
  [120, 136, (payload.length : Int)] ++ payload

/-- `calculate_bytestring`: the mode-dispatching encoder from user intent
to a base command. -/
def calculate_bytestring (color_mode : List Char) (args : Args) : Except CliError (List Int) :=
  let mode := color_mode.map upperChar
  if mode = "CCT".toList then
    let temp := clamp (parse_temp_value args.temp) 25 100
    let bri := clamp args.bri 0 100
    let gm := clamp (args.gm + 50) 0 100
    .ok [120, 135, 2, bri, temp, gm]
  else if mode = "HSI".toList then
    let hue := clamp args.hue 0 360
    let sat := clamp args.sat 0 100
    let bri := clamp args.bri 0 100
    .ok [120, 134, 4, hue % 256, (hue % 65536) / 256, sat, bri]
  else if mode = "ANM".toList ∨ mode = "SCENE".toList then
    let effect := clamp args.scene 1 29
    if args.enable_extended_scene = true then
      .ok (calculate_extended_scene_bytestring effect args)
    else
      let bri := clamp args.bri 0 100
      .ok [120, 136, 2, effect, bri]
  else
    .error (.valueError ("Unsupported mode: " ++ String.mk color_mode))

/-- `set_power_bytestring`. -/
def set_power_bytestring (power_on : Bool) : List Int :=
  [120, 129, 1, if power_on then 1 else 2]

/-- `split_mac_address`: six colon-separated hex octets to six integers. -/
def split_mac_address (mac_address : List Char) : Except CliError (List Int) :=
  let parts := splitOnChar ':' mac_address
  if parts.length ≠ 6 then
    .error (.valueError ("Expected MAC address with 6 octets, got: " ++ String.mk mac_address))
  else
    match parts.mapM parseHexDigits with
    | some octets => .ok octets
    | none => .error (.valueError "invalid literal for int() with base 16")

/-- Byte image of `get_infinity_power_bytestring` once the MAC has been
split into octets. -/
def infinity_power_payload (power_on : Bool) (mac_octets : List Int) : List Int :=
  [120, 141, 8] ++ mac_octets ++ [129, if power_on then 1 else 0]

/-- `get_infinity_power_bytestring`: MAC-addressed power envelope. -/
def get_infinity_power_bytestring (power_on : Bool) (light_mac_address : List Char) :
    Except CliError (List Int) :=
  match split_mac_address light_mac_address with
  | .error e => .error e
  | .ok octets => .ok (infinity_power_payload power_on octets)

/-- `cct_split_bytestrings`: brightness-only and temperature-only commands
for CCT-only fixtures. -/
def cct_split_bytestrings (command : List Int) : List (List Int) :=
  [[120, 130, 1, command.getD 3 0], [120, 131, 1, command.getD 4 0]]

/-- `get_hw_mac_for_light`: a configured `hw_mac`, else the device address
when it looks like a MAC (five colons), else a `ValueError`. -/
def get_hw_mac_for_light (light : LightInfo) : Except CliError (List Char) :=
  if light.hw_mac.getD [] ≠ [] then
    .ok (light.hw_mac.getD [])
  else if light.address.count ':' = 5 then
    .ok light.address
  else
    .error (.valueError ("Infinity command requires a MAC address but device address is " ++
      String.mk light.address))

/-- `model_supports_extended_scene`: explicit override, else inferred from
dialect and the CCT-only flag. -/
def model_supports_extended_scene (light : LightInfo) : Bool :=
  match light.supports_extended_scene with
  | some value => value
  | none => (light.infinity_mode == 1 || light.infinity_mode == 2) && !light.cct_only

/-- A delivered frame: payload bytes, requires-ack flag, post-delay in
seconds (exact rational image of the Python float). -/
abbrev Frame := List Int × Bool × ℚ

/-- `build_payload_sequence`: dialect branching from a base command to the
ordered delivery plan. Out-of-range list reads are modelled with `getD`;
the callers only pass the well-formed base commands the encoder builds, on
which every read is in range exactly as in Python. The scene branch splits
the resolved MAC once and reuses the octets for the two synthetic power
envelopes, which Python recomputes from the same string. -/
def build_payload_sequence (light : LightInfo) (base_command : List Int)
    (power_with_response : Bool) : Except CliError (List Frame) :=
  let mode := base_command.getD 1 0
  if light.cct_only = true ∧ (mode = 134 ∨ mode = 136) then
    .error (.unsupportedMode (String.mk light.name ++ " only supports CCT mode."))
  else if mode = 129 then
    if light.infinity_mode = 1 then
      match get_hw_mac_for_light light with
      | .error e => .error e
      | .ok hw_mac =>
        match get_infinity_power_bytestring (base_command.getD 3 0 == 1) hw_mac with
        | .error e => .error e
        | .ok power_bytes => .ok [(tag_checksum power_bytes, power_with_response, 0)]
    else
      .ok [(tag_checksum base_command, power_with_response, 0)]
  else if mode = 135 then
    if light.cct_only = true then
      let split_values := cct_split_bytestrings base_command
      .ok [(tag_checksum (split_values.getD 0 []), false, mkRat 5 100),
           (tag_checksum (split_values.getD 1 []), false, 0)]
    else if light.infinity_mode = 1 then
      match get_hw_mac_for_light light with
      | .error e => .error e
      | .ok hw_mac =>
        match split_mac_address hw_mac with
        | .error e => .error e
        | .ok octets =>
          .ok [(tag_checksum ([120, 144, 11] ++ octets ++
                [135, base_command.getD 3 0, base_command.getD 4 0, base_command.getD 5 0, 4]),
                false, 0)]
    else if light.infinity_mode = 2 then
      .ok [(tag_checksum (base_command.set 2 3), false, 0)]
    else
      .ok [(tag_checksum (base_command.take 5), false, 0)]
  else if mode = 134 then
    if light.infinity_mode = 1 then
      match get_hw_mac_for_light light with
      | .error e => .error e
      | .ok hw_mac =>
        match split_mac_address hw_mac with
        | .error e => .error e
        | .ok octets =>
          .ok [(tag_checksum ([120, 143, 11] ++ octets ++
                [134, base_command.getD 3 0, base_command.getD 4 0, base_command.getD 5 0,
                 base_command.getD 6 0]),
                false, 0)]
    else
      .ok [(tag_checksum base_command, false, 0)]
  else if mode = 136 then
    if 5 < base_command.length ∧ model_supports_extended_scene light = false then
      .error (.unsupportedMode
        (String.mk light.name ++ " does not support extended scene arguments."))
    else if light.infinity_mode = 1 then
      match get_hw_mac_for_light light with
      | .error e => .error e
      | .ok hw_mac =>
        match split_mac_address hw_mac with
        | .error e => .error e
        | .ok octets =>
          let payload := [120, 145, 6 + ((base_command.length : Int) - 2)] ++ octets ++
            [139, convert_fx_index 1 (base_command.getD 3 0)] ++ base_command.drop 4
          .ok [(tag_checksum (infinity_power_payload false octets), false, mkRat 5 100),
               (tag_checksum (infinity_power_payload true octets), false, mkRat 5 100),
               (tag_checksum payload, false, 0)]
    else if light.infinity_mode = 2 then
      .ok [(tag_checksum ((base_command.set 1 139).set 2 ((base_command.length : Int) - 3)),
            false, 0)]
    else
      let payload := base_command.take 5
      let current_effect := payload.getD 3 0
      let payload := payload.set 3 (payload.getD 4 0)
      let payload := payload.set 4 (convert_fx_index 0 current_effect)
      .ok [(tag_checksum payload, false, 0)]
  else
    .error (.valueError ("Unsupported command mode byte: " ++ toString mode))

/-- `MASTER_LIGHT_SPECS`: name substring, CCT Kelvin min, CCT Kelvin max,
CCT-only flag, infinity mode. -/
def MASTER_LIGHT_SPECS : List (List Char × Int × Int × Bool × Int) := [
  ("Apollo".toList, 5600, 5600, true, 0),
  ("BH-30S RGB".toList, 2500, 10000, false, 1),
  ("CB60 RGB".toList, 2500, 6500, false, 1),
  ("CL124".toList, 2500, 10000, false, 2),
  ("GL1".toList, 2900, 7000, true, 0),
  ("GL1C".toList, 2900, 7000, false, 1),
  ("HB80C".toList, 2500, 7500, false, 1),
  ("MS60B".toList, 2700, 6500, true, 1),
  ("NL140".toList, 3200, 5600, true, 0),
  ("RGB C80".toList, 2500, 10000, false, 1),
  ("RGB CB60".toList, 2500, 10000, false, 1),
  ("RGB1".toList, 3200, 5600, false, 1),
  ("RGB1000".toList, 2500, 10000, false, 1),
  ("RGB1200".toList, 2500, 10000, false, 1),
  ("RGB140".toList, 2500, 10000, false, 1),
  ("RGB168".toList, 2500, 8500, false, 2),
  ("RGB176".toList, 3200, 5600, false, 0),
  ("RGB176 A1".toList, 2500, 10000, false, 0),
  ("RGB18".toList, 3200, 5600, false, 0),
  ("RGB190".toList, 3200, 5600, false, 0),
  ("RGB450".toList, 3200, 5600, false, 0),
  ("RGB480".toList, 3200, 5600, false, 0),
  ("RGB512".toList, 2500, 10000, false, 1),
  ("RGB530".toList, 3200, 5600, false, 0),
  ("RGB530PRO".toList, 3200, 5600, false, 0),
  ("RGB650".toList, 3200, 5600, false, 0),
  ("RGB660".toList, 3200, 5600, false, 0),
  ("RGB660PRO".toList, 3200, 5600, false, 0),
  ("RGB800".toList, 2500, 10000, false, 1),
  ("RGB960".toList, 3200, 5600, false, 0),
  ("RGB-P200".toList, 3200, 5600, false, 0),
  ("RGB-P280".toList, 3200, 5600, false, 0),
  ("SL70".toList, 3200, 8500, false, 0),
  ("SL80".toList, 3200, 8500, false, 0),
  ("SL90".toList, 2500, 10000, false, 1),
  ("SL90 Pro".toList, 2500, 10000, false, 1),
  ("SNL1320".toList, 3200, 5600, true, 0),
  ("SNL1920".toList, 3200, 5600, true, 0),
  ("SNL480".toList, 3200, 5600, true, 0),
  ("SNL530".toList, 3200, 5600, true, 0),
  ("SNL660".toList, 3200, 5600, true, 0),
  ("SNL960".toList, 3200, 5600, true, 0),
  ("SRP16".toList, 3200, 5600, true, 0),
  ("SRP18".toList, 3200, 5600, true, 0),
  ("TL60".toList, 2500, 10000, false, 1),
  ("WRP18".toList, 3200, 5600, true, 0),
  ("ZK-RY".toList, 5600, 5600, false, 0),
  ("ZRP16".toList, 3200, 5600, true, 0)]

/-- `_find_light_specs_entry`: scan `MASTER_LIGHT_SPECS` in reverse and
return the first entry whose name substring occurs in the light name. -/
def find_light_specs_entry (light_name : List Char) :
    Option (List Char × Int × Int × Bool × Int) :=
  MASTER_LIGHT_SPECS.reverse.find? fun entry => containsSub light_name entry.1

/-- Normalised and possibly swapped CCT bounds of a specs entry, as
computed inside `validate_base_command_for_light`. -/
def cct_bounds_for_entry (entry : List Char × Int × Int × Bool × Int) : Int × Int :=
  let min_temp := clamp (parse_temp_value entry.2.1) 25 100
  let max_temp := clamp (parse_temp_value entry.2.2.1) 25 100
  if max_temp < min_temp then (max_temp, min_temp) else (min_temp, max_temp)

/-- `validate_base_command_for_light`: CCT range validation, active only
for mode 135 and only when a specs entry matches the light name. -/
def validate_base_command_for_light (light : LightInfo) (base_command : List Int) :
    Except CliError Unit :=
  let mode := base_command.getD 1 0
  if mode ≠ 135 then .ok ()
  else
    match find_light_specs_entry light.name with
    | none => .ok ()
    | some entry =>
        let bounds := cct_bounds_for_entry entry
        let temp := base_command.getD 4 0
        if bounds.1 ≤ temp ∧ temp ≤ bounds.2 then .ok ()
        else
          let supported :=
            if bounds.1 = bounds.2 then toString bounds.1 ++ "00K"
            else toString bounds.1 ++ "00K-" ++ toString bounds.2 ++ "00K"
          .error (.unsupportedMode (String.mk light.name ++ " supports CCT " ++ supported ++
            ", got " ++ toString temp ++ "00K."))

/-- `normalize_address`: strip and upper-case. -/
def normalize_address (addr : List Char) : List Char :=
  (pyStrip addr).map upperChar

/-- Per-octet checks of `validate_mac_address`, in source order: length
first, then hex parsing, stopping at the first bad octet. -/
def check_octets : List (List Char) → Except CliError Unit
  | [] => .ok ()
  | part :: rest =>
      if part.length ≠ 2 then
        .error (.configError "Invalid MAC address: octets must be 2 hex chars")
      else if (parseHexDigits part).isNone then
        .error (.configError "Invalid MAC address: non-hex octet")
      else check_octets rest

/-- `validate_mac_address`: normalise, require six two-hex-char octets,
return the normalised address. -/
def validate_mac_address (mac_address : List Char) : Except CliError (List Char) :=
  let normalized := normalize_address mac_address
  let parts := splitOnChar ':' normalized
  if parts.length ≠ 6 then
    .error (.configError "Invalid MAC address: expected 6 octets")
  else
    match check_octets parts with
    | .error e => .error e
    | .ok _ => .ok normalized

/-- Loop body of `selector_to_addresses`: resolve one selector token into
the accumulated address set. Python accumulates in a `set`, modelled as a
`Finset`. -/
def selector_resolve_token (groups : List (List Char × List (List Char)))
    (resolved : Finset (List Char)) (token : List Char) :
    Except CliError (Finset (List Char)) :=
  if ("group:".toList).isPrefixOf (token.map lowerChar) then
    let group_name := afterFirstColon token
    match groups.lookup group_name with
    | none =>
        .error (.configError ("Unknown group " ++ String.mk group_name ++ " in light selector"))
    | some members => .ok (resolved ∪ members.toFinset)
  else
    match validate_mac_address token with
    | .error e => .error e
    | .ok addr => .ok (insert addr resolved)

/-- `selector_to_addresses`: `none` is the "all discovered" sentinel,
otherwise the union of the per-token address sets. The groups mapping is
an association list with the first binding of a name authoritative, as in a
Python dict with unique keys. -/
def selector_to_addresses (selector : List Char)
    (groups : List (List Char × List (List Char))) :
    Except CliError (Option (Finset (List Char))) :=
  if pyStrip selector = [] ∨ selector.map upperChar = "ALL".toList ∨
      selector.map upperChar = "*".toList then
    .ok none
  else
    let tokens := ((splitOnChar ',' selector).map pyStrip).filter fun t => !t.isEmpty
    match tokens.foldlM (selector_resolve_token groups) (∅ : Finset (List Char)) with
    | .error e => .error e
    | .ok resolved => .ok (some resolved)

/-- Length-byte discipline of a base command: byte 2 counts the bytes that
follow it (the checksum not yet being attached). -/
def length_byte_ok (command : List Int) : Prop :=
  command.getD 2 0 = (command.length : Int) - 3

instance (command : List Int) : Decidable (length_byte_ok command) := by
  unfold length_byte_ok
  infer_instance

/-- Inputs of the concrete CCT scenario `temp=5600, bri=40, gm=0`. -/
def args_cct_40_5600 : Args := {
  temp := 5600, bri := 40, gm := 0, hue := 0, sat := 0, scene := 1,
  enable_extended_scene := false,
  scene_bright_min := 0, scene_bright_max := 100,
  scene_temp_min := 3200, scene_temp_max := 5600,
  scene_hue_min := 0, scene_hue_max := 360,
  scene_speed := 5, scene_sparks := 1, scene_special := 1 }

/-- An Infinity-dialect fixture with hardware MAC `AA:BB:CC:DD:EE:FF`. -/
def infinity_light : LightInfo := {
  name := "RGB1200".toList
  realname := "RGB1200".toList
  address := "AA:BB:CC:DD:EE:FF".toList
  rssi := -50
  cct_only := false
  infinity_mode := 1
  hw_mac := some "AA:BB:CC:DD:EE:FF".toList }

/-- A CCT-only fixture on the classic path. -/
def cct_only_light : LightInfo := {
  name := "SNL660".toList
  realname := "SNL660".toList
  address := "AA:AA:AA:AA:AA:AA".toList
  rssi := -50
  cct_only := true
  infinity_mode := 0 }

/-- A classic (non-Infinity) full-color fixture. -/
def classic_light : LightInfo := {
  name := "FS150B".toList
  realname := "FS150B".toList
  address := "AA:AA:AA:AA:AA:AA".toList
  rssi := -50
  cct_only := false
  infinity_mode := 0 }

/-! ## Helper lemmas -/

theorem tag_checksum_go_spec (payload : List Int) :
    ∀ checksum tagged, tag_checksum_go payload checksum tagged =
      tagged ++ payload ++ [(checksum + (payload.map promote_byte).sum) % 256] := by
  induction payload with
  | nil => intro checksum tagged; simp [tag_checksum_go]
  | cons value rest ih =>
      intro checksum tagged
      rw [tag_checksum_go, ih]
      simp [add_assoc]

theorem tag_checksum_eq (payload : List Int) :
    tag_checksum payload = payload ++ [(payload.map promote_byte).sum % 256] := by
  rw [tag_checksum, tag_checksum_go_spec]
  simp

theorem promote_sum_emod (payload : List Int) :
    (payload.map promote_byte).sum % 256 = payload.sum % 256 := by
  induction payload with
  | nil => rfl
  | cons value rest ih =>
      simp only [List.map_cons, List.sum_cons]
      have hp : promote_byte value % 256 = value % 256 := by
        unfold promote_byte; split <;> omega
      omega

theorem clamp_bounds (value low high : Int) (h : low ≤ high) :
    low ≤ clamp value low high ∧ clamp value low high ≤ high :=
  ⟨le_max_left _ _, max_le h (min_le_left _ _)⟩

theorem isPrefixOf_append_self (l t : List Char) : l.isPrefixOf (l ++ t) = true := by
  induction l with
  | nil => simp [List.isPrefixOf]
  | cons a l ih => simp [List.isPrefixOf, ih]

theorem map_lower_group_token (name : List Char) :
    ("group:".toList ++ name).map lowerChar = "group:".toList ++ name.map lowerChar := by
  have h : List.map lowerChar "group:".toList = "group:".toList := by decide
  rw [List.map_append, h]

theorem afterFirstColon_group_token (name : List Char) :
    afterFirstColon ("group:".toList ++ name) = name := by
  simp +decide [afterFirstColon]

/-! ## Claims -/

/-- C1: for every list of integers `P`, `tag_checksum P` is `P` with one
byte appended (so dropping the last byte recovers `P`), and that byte is
the sum of the elements taken modulo 256, with negative elements promoted
by 256 first (which does not change the residue). -/
theorem tag_checksum_roundtrip (P : List Int) :
    tag_checksum P = P ++ [(P.map promote_byte).sum % 256] ∧
    (tag_checksum P).dropLast = P ∧
    (P.map promote_byte).sum % 256 = P.sum % 256 := by
  refine ⟨tag_checksum_eq P, ?_, promote_sum_emod P⟩
  rw [tag_checksum_eq P]
  simp

/-- C2 counterexample: the CCT base command carries length byte 2 while
three bytes (bri, temp, gm) follow it, refuting the claim that every base
command the encoder produces satisfies the length-byte discipline. -/
theorem cct_length_byte_counterexample :
    calculate_bytestring "CCT".toList args_cct_40_5600 = .ok [120, 135, 2, 40, 56, 50] ∧
    ¬ length_byte_ok [120, 135, 2, 40, 56, 50] := by
  constructor
  · decide
  · intro h
    simp [length_byte_ok] at h

/-- C2 (amended): byte 2 equals the count of bytes that follow it for the
power, HSI, short-scene and every extended-scene base command; the CCT
base command is the exception — its length byte is 2 while three bytes
(bri, temp, gm) follow, the GM byte being dropped or re-counted later by
dialect branching. -/
theorem length_byte_spec :
    (∀ power_on, length_byte_ok (set_power_bytestring power_on)) ∧
    (∀ args cmd, calculate_bytestring "HSI".toList args = .ok cmd → length_byte_ok cmd) ∧
    (∀ args cmd, args.enable_extended_scene = false →
      calculate_bytestring "SCENE".toList args = .ok cmd → length_byte_ok cmd) ∧
    (∀ effect args, length_byte_ok (calculate_extended_scene_bytestring effect args)) ∧
    (∀ args cmd, calculate_bytestring "CCT".toList args = .ok cmd →
      cmd.getD 2 0 = 2 ∧ (cmd.length : Int) - 3 = 3) := by
  have framed : ∀ (b : Int) (p : List Int), length_byte_ok ([120, b, (p.length : Int)] ++ p) := by
    intro b p
    have h1 : ([120, b, (p.length : Int)] ++ p).getD 2 0 = (p.length : Int) := rfl
    have h2 : ([120, b, (p.length : Int)] ++ p).length = 3 + p.length := by
      simp only [List.length_append, List.length_cons, List.length_nil]
    unfold length_byte_ok
    rw [h1, h2]
    omega
  refine ⟨?_, ?_, ?_, ?_, ?_⟩
  · intro power_on; cases power_on <;> decide
  · intro args cmd h
    simp +decide [calculate_bytestring] at h
    rw [← h]
    exact framed 134 [_, _, _, _]
  · intro args cmd hext h
    simp +decide [calculate_bytestring, hext] at h
    rw [← h]
    exact framed 136 [_, _]
  · intro effect args
    exact framed 136 _
  · intro args cmd h
    simp +decide [calculate_bytestring] at h
    rw [← h]
    exact ⟨rfl, rfl⟩

/-- C2 witness: concrete instances of the amended length-byte discipline. -/
theorem length_byte_spec_witness :
    length_byte_ok [120, 134, 4, 240, 0, 100, 50] ∧
    ([120, 135, 2, 40, 56, 50] : List Int).getD 2 0 = 2 ∧
      (([120, 135, 2, 40, 56, 50] : List Int).length : Int) - 3 = 3 :=
  ⟨length_byte_spec.2.1 { args_cct_40_5600 with hue := 240, sat := 100, bri := 50 } _ (by decide),
   length_byte_spec.2.2.2.2 args_cct_40_5600 _ (by decide)⟩

/-- C3 counterexample: on the Infinity fixture with MAC
`AA:BB:CC:DD:EE:FF`, effect 22 and bri 60, the third (effect) frame the
code emits has length byte 9, not 6 — it is not the claimed frame
`[120,145,6, mac(6), 139, 8, 60]` plus checksum. -/
theorem infinity_scene_frame_counterexample :
    build_payload_sequence infinity_light [120, 136, 2, 22, 60] false = .ok [
      ([120, 141, 8, 170, 187, 204, 221, 238, 255, 129, 0, 137], false, mkRat 5 100),
      ([120, 141, 8, 170, 187, 204, 221, 238, 255, 129, 1, 138], false, mkRat 5 100),
      ([120, 145, 9, 170, 187, 204, 221, 238, 255, 139, 8, 60, 220], false, 0)] ∧
    ([120, 145, 9, 170, 187, 204, 221, 238, 255, 139, 8, 60, 220] : List Int) ≠
      tag_checksum [120, 145, 6, 170, 187, 204, 221, 238, 255, 139, 8, 60] := by
  constructor
  · decide
  · decide

/-- C3 (amended): the scene command on the Infinity fixture produces three
frames, the third being `[120,145,9, mac(6), 139, 8, 60]` plus checksum:
its length byte is `6 + (len(base) - 2) = 9`, and effect 22 is remapped
to 8. -/
theorem infinity_scene_frame_bytes :
    build_payload_sequence infinity_light [120, 136, 2, 22, 60] false = .ok [
      ([120, 141, 8, 170, 187, 204, 221, 238, 255, 129, 0, 137], false, mkRat 5 100),
      ([120, 141, 8, 170, 187, 204, 221, 238, 255, 129, 1, 138], false, mkRat 5 100),
      (tag_checksum [120, 145, 9, 170, 187, 204, 221, 238, 255, 139, 8, 60], false, 0)] ∧
    convert_fx_index 1 22 = 8 := by
  constructor
  · decide
  · decide

/-- C4: a CCT-only fixture rejects every base command whose mode byte is
134 (HSI) or 136 (scene) with `UnsupportedMode`, producing no frames. -/
theorem cct_only_rejects_color_modes (light : LightInfo) (base_command : List Int)
    (power_with_response : Bool) (h1 : light.cct_only = true)
    (h2 : base_command.getD 1 0 = 134 ∨ base_command.getD 1 0 = 136) :
    build_payload_sequence light base_command power_with_response =
      .error (.unsupportedMode (String.mk light.name ++ " only supports CCT mode.")) := by
  simp only [build_payload_sequence]
  rw [if_pos ⟨h1, h2⟩]

/-- C4 witness: the CCT-only fixture rejects a concrete HSI base. -/
theorem cct_only_rejects_color_modes_witness :
    build_payload_sequence cct_only_light [120, 134, 4, 240, 0, 100, 50] true =
      .error (.unsupportedMode (String.mk cct_only_light.name ++ " only supports CCT mode.")) :=
  cct_only_rejects_color_modes cct_only_light [120, 134, 4, 240, 0, 100, 50] true rfl
    (Or.inl (by decide))

/-- C5: on an Infinity fixture (with a resolvable MAC), every scene base
command that passes the capability checks yields exactly three frames in
order: power-off envelope, power-on envelope (both with a 0.05 s
post-delay), then the effect envelope. The length hypothesis records that
Python would fault on a scene base shorter than the encoder ever emits. -/
theorem infinity_scene_triplet (light : LightInfo) (base_command : List Int)
    (power_with_response : Bool) (mac : List Char) (octets : List Int)
    (hinf : light.infinity_mode = 1)
    (hcct : light.cct_only = false)
    (hmode : base_command.getD 1 0 = 136)
    (_hlen : 4 ≤ base_command.length)
    (hext : 5 < base_command.length → model_supports_extended_scene light = true)
    (hmac : get_hw_mac_for_light light = .ok mac)
    (hsplit : split_mac_address mac = .ok octets) :
    build_payload_sequence light base_command power_with_response = .ok [
      (tag_checksum (infinity_power_payload false octets), false, mkRat 5 100),
      (tag_checksum (infinity_power_payload true octets), false, mkRat 5 100),
      (tag_checksum ([120, 145, 6 + ((base_command.length : Int) - 2)] ++ octets ++
        [139, convert_fx_index 1 (base_command.getD 3 0)] ++ base_command.drop 4),
       false, 0)] := by
  have hns : ¬(5 < base_command.length ∧ model_supports_extended_scene light = false) := by
    rintro ⟨hgt, hn⟩
    rw [hext hgt] at hn
    cases hn
  simp +decide [build_payload_sequence, hmode, hinf, hcct, hmac, hsplit, hns,
    -List.getD_eq_getElem?_getD]

/-- C5 witness: the triplet at the concrete Infinity fixture with
`hw_mac = AA:BB:CC:DD:EE:FF`, effect 22, bri 60. -/
theorem infinity_scene_triplet_witness :
    build_payload_sequence infinity_light [120, 136, 2, 22, 60] true = .ok [
      ([120, 141, 8, 170, 187, 204, 221, 238, 255, 129, 0, 137], false, mkRat 5 100),
      ([120, 141, 8, 170, 187, 204, 221, 238, 255, 129, 1, 138], false, mkRat 5 100),
      ([120, 145, 9, 170, 187, 204, 221, 238, 255, 139, 8, 60, 220], false, 0)] :=
  (infinity_scene_triplet infinity_light [120, 136, 2, 22, 60] true
    "AA:BB:CC:DD:EE:FF".toList [170, 187, 204, 221, 238, 255] rfl rfl (by decide) (by decide)
    (fun hgt => absurd hgt (by decide)) (by decide) (by decide)).trans (by decide)

/-- C6: on a Classic, non-CCT-only fixture, a mode-135 base command
branches to a single no-ack frame, the first five bytes plus checksum —
the GM byte is dropped. For an encoder-produced CCT base this frame is
`[120,135,2,bri,temp]` plus checksum; concretely, `temp=5600, bri=40,
gm=0` yield the single frame `[120,135,2,40,56,97]`. -/
theorem classic_cct_drops_gm :
    (∀ (light : LightInfo) (base_command : List Int) (pwr : Bool),
      light.infinity_mode = 0 → light.cct_only = false → base_command.getD 1 0 = 135 →
      build_payload_sequence light base_command pwr =
        .ok [(tag_checksum (base_command.take 5), false, 0)]) ∧
    (∀ (args : Args) (light : LightInfo) (pwr : Bool) (cmd : List Int),
      light.infinity_mode = 0 → light.cct_only = false →
      calculate_bytestring "CCT".toList args = .ok cmd →
      build_payload_sequence light cmd pwr =
        .ok [(tag_checksum [120, 135, 2, clamp args.bri 0 100,
          clamp (parse_temp_value args.temp) 25 100], false, 0)]) ∧
    (∀ (light : LightInfo) (pwr : Bool),
      light.infinity_mode = 0 → light.cct_only = false →
      build_payload_sequence light [120, 135, 2, 40, 56, 50] pwr =
        .ok [([120, 135, 2, 40, 56, 97], false, 0)]) ∧
    calculate_bytestring "CCT".toList args_cct_40_5600 = .ok [120, 135, 2, 40, 56, 50] := by
  have key : ∀ (light : LightInfo) (base_command : List Int) (pwr : Bool),
      light.infinity_mode = 0 → light.cct_only = false → base_command.getD 1 0 = 135 →
      build_payload_sequence light base_command pwr =
        .ok [(tag_checksum (base_command.take 5), false, 0)] := by
    intro light base_command pwr hinf hcct hmode
    simp +decide [build_payload_sequence, hmode, hinf, hcct, -List.getD_eq_getElem?_getD]
  refine ⟨key, ?_, ?_, by decide⟩
  · intro args light pwr cmd hinf hcct hcmd
    simp +decide [calculate_bytestring] at hcmd
    subst hcmd
    rw [key light [120, 135, 2, clamp args.bri 0 100, clamp (parse_temp_value args.temp) 25 100,
      clamp (args.gm + 50) 0 100] pwr hinf hcct rfl]
    rfl
  · intro light pwr hinf hcct
    rw [key light [120, 135, 2, 40, 56, 50] pwr hinf hcct rfl]
    decide

/-- C6 witness: the concrete Classic fixture and encoder output. -/
theorem classic_cct_drops_gm_witness :
    build_payload_sequence classic_light [120, 135, 2, 40, 56, 50] true =
      .ok [([120, 135, 2, 40, 56, 97], false, 0)] :=
  classic_cct_drops_gm.2.2.1 classic_light true rfl rfl

/-- C7: temperature normalization — inputs below 1000 pass through
unchanged; inputs ≥ 1000 are divided by 100 (exactly when divisible,
otherwise to a nearest multiple of 100); the CCT path then clamps the
result to [25, 100]; the concrete values are 56 for 5600, 56 for 56, and
100 for 10100. -/
theorem temp_normalization :
    (∀ t : Int, t < 1000 → parse_temp_value t = t) ∧
    (∀ t : Int, 1000 ≤ t → t % 100 = 0 → parse_temp_value t = t / 100) ∧
    (∀ t : Int, 1000 ≤ t →
      100 * parse_temp_value t - t ≤ 50 ∧ t - 100 * parse_temp_value t ≤ 50) ∧
    (clamp (parse_temp_value 5600) 25 100 = 56 ∧ clamp (parse_temp_value 56) 25 100 = 56 ∧
      clamp (parse_temp_value 10100) 25 100 = 100) ∧
    (∀ (args : Args) (cmd : List Int), calculate_bytestring "CCT".toList args = .ok cmd →
      cmd.getD 4 0 = clamp (parse_temp_value args.temp) 25 100) := by
  refine ⟨?_, ?_, ?_, by decide, ?_⟩
  · intro t ht
    unfold parse_temp_value
    rw [if_neg (by omega)]
  · intro t ht hdvd
    simp only [parse_temp_value, round_div_100]
    split_ifs <;> omega
  · intro t ht
    simp only [parse_temp_value, round_div_100]
    split_ifs <;> constructor <;> omega
  · intro args cmd h
    simp +decide [calculate_bytestring] at h
    rw [← h]
    rfl

/-- C7 witness: concrete instances of the normalization facts. -/
theorem temp_normalization_witness :
    parse_temp_value 999 = 999 ∧ parse_temp_value 5600 = 56 ∧
    ([120, 135, 2, 40, 56, 50] : List Int).getD 4 0 =
      clamp (parse_temp_value args_cct_40_5600.temp) 25 100 :=
  ⟨temp_normalization.1 999 (by decide),
   (temp_normalization.2.1 5600 (by decide) (by decide)).trans (by decide),
   temp_normalization.2.2.2.2 args_cct_40_5600 _ (by decide)⟩

/-- C8: for all integer inputs the CCT base command carries
`bri ∈ [0,100]`, `temp ∈ [25,100]` and `gm+50 ∈ [0,100]`, and the HSI base
command carries the two-byte encoding of a hue in `[0,360]`,
`sat ∈ [0,100]` and `bri ∈ [0,100]`. -/
theorem encoder_clamps (args : Args) :
    (∃ bri temp gm,
      calculate_bytestring "CCT".toList args = .ok [120, 135, 2, bri, temp, gm] ∧
      0 ≤ bri ∧ bri ≤ 100 ∧ 25 ≤ temp ∧ temp ≤ 100 ∧ 0 ≤ gm ∧ gm ≤ 100) ∧
    (∃ hue sat bri,
      calculate_bytestring "HSI".toList args =
        .ok [120, 134, 4, hue % 256, hue / 256, sat, bri] ∧
      0 ≤ hue ∧ hue ≤ 360 ∧ hue % 256 + 256 * (hue / 256) = hue ∧
      0 ≤ sat ∧ sat ≤ 100 ∧ 0 ≤ bri ∧ bri ≤ 100) := by
  constructor
  · refine ⟨clamp args.bri 0 100, clamp (parse_temp_value args.temp) 25 100,
      clamp (args.gm + 50) 0 100, ?_, ?_, ?_, ?_, ?_, ?_, ?_⟩
    · simp +decide [calculate_bytestring]
    · exact (clamp_bounds _ _ _ (by omega)).1
    · exact (clamp_bounds _ _ _ (by omega)).2
    · exact (clamp_bounds _ _ _ (by omega)).1
    · exact (clamp_bounds _ _ _ (by omega)).2
    · exact (clamp_bounds _ _ _ (by omega)).1
    · exact (clamp_bounds _ _ _ (by omega)).2
  · have h0 : 0 ≤ clamp args.hue 0 360 := (clamp_bounds _ _ _ (by omega)).1
    have h360 : clamp args.hue 0 360 ≤ 360 := (clamp_bounds _ _ _ (by omega)).2
    have hsml : clamp args.hue 0 360 % 65536 = clamp args.hue 0 360 := by omega
    refine ⟨clamp args.hue 0 360, clamp args.sat 0 100, clamp args.bri 0 100,
      ?_, h0, h360, by omega, ?_, ?_, ?_, ?_⟩
    · simp +decide [calculate_bytestring]
      rw [hsml]
    · exact (clamp_bounds _ _ _ (by omega)).1
    · exact (clamp_bounds _ _ _ (by omega)).2
    · exact (clamp_bounds _ _ _ (by omega)).1
    · exact (clamp_bounds _ _ _ (by omega)).2

/-- C9: the selector sentinels `"ALL"`, `"*"` and `""` resolve to the
"all discovered" answer for every groups mapping; a `group:<name>` token
resolves to exactly the configured membership of that group, an unknown
group name fails with a configuration error, and a comma-separated
selector unions the per-token sets. -/
theorem selector_evaluation :
    (∀ groups, selector_to_addresses "ALL".toList groups = .ok none ∧
      selector_to_addresses "*".toList groups = .ok none ∧
      selector_to_addresses "".toList groups = .ok none) ∧
    (∀ groups resolved name members, groups.lookup name = some members →
      selector_resolve_token groups resolved ("group:".toList ++ name) =
        .ok (resolved ∪ members.toFinset)) ∧
    (∀ groups resolved name, groups.lookup name = none →
      selector_resolve_token groups resolved ("group:".toList ++ name) =
        .error (.configError ("Unknown group " ++ String.mk name ++ " in light selector"))) ∧
    (∀ groups resolved name members rest, groups.lookup name = some members →
      List.foldlM (selector_resolve_token groups) resolved (("group:".toList ++ name) :: rest) =
        List.foldlM (selector_resolve_token groups) (resolved ∪ members.toFinset) rest) ∧
    selector_to_addresses "group:s".toList [("s".toList, ["M1".toList])] =
      .ok (some {"M1".toList}) ∧
    selector_to_addresses "group:missing".toList [] =
      .error (.configError "Unknown group missing in light selector") := by
  have tokexp : ∀ groups resolved name members, List.lookup name groups = some members →
      selector_resolve_token groups resolved ("group:".toList ++ name) =
        .ok (resolved ∪ members.toFinset) := by
    intro groups resolved name members h
    unfold selector_resolve_token
    rw [if_pos (by rw [map_lower_group_token]; exact isPrefixOf_append_self _ _),
      afterFirstColon_group_token]
    simp only [h]
  refine ⟨?_, tokexp, ?_, ?_, by decide, by decide⟩
  · intro groups
    exact ⟨rfl, rfl, rfl⟩
  · intro groups resolved name h
    unfold selector_resolve_token
    rw [if_pos (by rw [map_lower_group_token]; exact isPrefixOf_append_self _ _),
      afterFirstColon_group_token]
    simp only [h]
  · intro groups resolved name members rest h
    rw [List.foldlM_cons, tokexp groups resolved name members h]
    rfl

/-- C9 witness: the group token `group:s` expands to the configured
membership of `s`. -/
theorem selector_evaluation_witness :
    selector_resolve_token [("s".toList, ["M1".toList])] ∅ ("group:".toList ++ "s".toList) =
      .ok (∅ ∪ ["M1".toList].toFinset) :=
  selector_evaluation.2.1 [("s".toList, ["M1".toList])] ∅ "s".toList ["M1".toList] rfl

/-- C10: CCT range validation fires only for mode-135 commands on
fixtures whose name matches a `MASTER_LIGHT_SPECS` entry: any other mode
byte and any unmatched name pass unconditionally; on a matched entry the
normalized (and, if inverted, swapped) bounds must contain the encoded
temp code inclusively, the bounds being the min and max of the two
normalized spec temperatures. -/
theorem cct_range_validation :
    (∀ (light : LightInfo) (base_command : List Int),
      base_command.getD 1 0 ≠ 135 →
      validate_base_command_for_light light base_command = .ok ()) ∧
    (∀ (light : LightInfo) (base_command : List Int),
      find_light_specs_entry light.name = none →
      validate_base_command_for_light light base_command = .ok ()) ∧
    (∀ (light : LightInfo) (base_command : List Int) entry,
      base_command.getD 1 0 = 135 →
      find_light_specs_entry light.name = some entry →
      (validate_base_command_for_light light base_command = .ok () ↔
        (cct_bounds_for_entry entry).1 ≤ base_command.getD 4 0 ∧
          base_command.getD 4 0 ≤ (cct_bounds_for_entry entry).2)) ∧
    (∀ entry, cct_bounds_for_entry entry =
      (min (clamp (parse_temp_value entry.2.1) 25 100)
        (clamp (parse_temp_value entry.2.2.1) 25 100),
       max (clamp (parse_temp_value entry.2.1) 25 100)
        (clamp (parse_temp_value entry.2.2.1) 25 100))) := by
  refine ⟨?_, ?_, ?_, ?_⟩
  · intro light base_command h
    simp only [validate_base_command_for_light]
    rw [if_pos h]
  · intro light base_command h
    simp only [validate_base_command_for_light, h]
    split <;> rfl
  · intro light base_command entry hmode hentry
    simp only [validate_base_command_for_light, hentry]
    rw [if_neg (not_not_intro hmode)]
    split_ifs with hc
    · exact iff_of_true rfl hc
    · exact iff_of_false (by simp) hc
  · intro entry
    simp only [cct_bounds_for_entry]
    split_ifs with h
    · rw [min_eq_right (le_of_lt h), max_eq_left (le_of_lt h)]
    · rw [min_eq_left (by omega), max_eq_right (by omega)]

/-- C10 witness: a fixture named `RGB1200` matches the `RGB1200` specs
entry, whose normalized bounds 25–100 contain the temp code 56. -/
theorem cct_range_validation_witness :
    validate_base_command_for_light infinity_light [120, 135, 2, 40, 56, 50] = .ok () ↔
      (cct_bounds_for_entry ("RGB1200".toList, 2500, 10000, false, 1)).1 ≤ 56 ∧
        (56 : Int) ≤ (cct_bounds_for_entry ("RGB1200".toList, 2500, 10000, false, 1)).2 :=
  cct_range_validation.2.2.1 infinity_light [120, 135, 2, 40, 56, 50]
    ("RGB1200".toList, 2500, 10000, false, 1) (by decide) (by decide)

end NeewerCli
